import Mathlib

/-!
Verification of the `tables-to-go` repository (`tablestogo.go`).

The repository inspects a relational database schema and emits one Go
source file per table, holding a struct whose fields mirror the columns.
This file gives a shallow embedding of the pure core of that program:

* `mapDbColumnTypeToGoType` — the type mapper, translated line by line
  from the Go switch statement;
* `goTitle` — a model of the Go standard library function
  `strings.Title`, exact on the ASCII plane (runes at or above 0x80 are
  left uncased and treated as separators; the repository only feeds it
  catalog identifiers);
* `camelCaseString` — the naming helper `CamelCaseString`, whose source
  file is not part of the given sources; modelled from the spec;
* `goClean` / `goAbs` — models of Go `path/filepath.Clean` and
  `filepath.Abs` on slash-separated paths, with the working directory
  passed explicitly;
* `VerifySettings` — the settings verification, with `os.Stat` passed in
  as an oracle `stat : String → Option Bool` (`none` = does not exist,
  `some b` = exists, `b` = is a directory);
* `createStructOfTable` — the per-table emitter, producing the output
  path, the raw generated text, and the bytes actually written.  The
  external formatter `go/format.Source` is passed in as a function
  `String → String × Bool` returning its output bytes and an error flag;
  the Go code ignores the error (`formatedFile, _ := format.Source(...)`)
  and writes whatever bytes came back.

File-system side effects (directory creation, fsync, close) are elided;
the emitter is modelled as the pure function computing what would be
written and where.
-/

namespace TablesToGo

/-! ### Character-level helpers (Go `strings`/`unicode` on the ASCII plane) -/

/-- Separator test of Go `strings.Title`: a rune begins a new word when the
previous rune is a separator.  On ASCII, letters, digits and the underscore
are non-separators; everything else separates.  Runes at or above 0x80 are
treated as separators here (the repository only titles catalog
identifiers). -/
def isSepChar (c : Char) : Bool :=
  !(decide ((48 ≤ c.toNat ∧ c.toNat ≤ 57) ∨ (65 ≤ c.toNat ∧ c.toNat ≤ 90) ∨
    (97 ≤ c.toNat ∧ c.toNat ≤ 122) ∨ c.toNat = 95))

/-- ASCII letter-or-digit test (the segment characters kept by
`CamelCaseString`; the underscore counts as a separator there). -/
def isAlnumChar (c : Char) : Bool :=
  decide ((48 ≤ c.toNat ∧ c.toNat ≤ 57) ∨ (65 ≤ c.toNat ∧ c.toNat ≤ 90) ∨
    (97 ≤ c.toNat ∧ c.toNat ≤ 122))

/-- Worker of `goTitle`: Go `strings.Title` maps each rune to its title
case when the previous original rune is a separator.  `prev` is the
previous original rune (Go initialises it to a space). -/
def goTitleAux (prev : Char) : List Char → List Char
  | [] => []
  | c :: cs => (if isSepChar prev then Char.toUpper c else c) :: goTitleAux c cs

/-- Model of Go `strings.Title` (used at `tablestogo.go:243` and `:280`),
exact on ASCII where title case coincides with upper case. -/
def goTitle (s : String) : String := ⟨goTitleAux ' ' s.data⟩

/-- Worker of `camelCaseString`: drop separator characters; capitalise a
kept character exactly when it starts a new segment. -/
def camelAux : Bool → List Char → List Char
  | _, [] => []
  | atStart, c :: cs =>
    if isAlnumChar c then (if atStart then Char.toUpper c else c) :: camelAux false cs
    else camelAux true cs

/-- Modelled from the spec: the repository helper `CamelCaseString`
(called at `tablestogo.go:245` and `:282`) is not among the given source
files.  Spec 4.3: it "splits on non-alphanumeric separators and
capitalizes each segment, concatenating without separators". -/
def camelCaseString (s : String) : String := ⟨camelAux true s.data⟩

/-- Model of Go `strings.Contains`: substring containment (true for the
empty needle). -/
def goContains (s sub : String) : Bool :=
  s.data.tails.any (fun t => sub.data.isPrefixOf t)

/-! ### Model of Go `path/filepath` (slash-separated paths) -/

/-- Split a path into components at every slash. -/
def splitComps (acc : List Char) : List Char → List String
  | [] => [String.mk acc.reverse]
  | c :: cs =>
    if c = '/' then String.mk acc.reverse :: splitComps [] cs
    else splitComps (c :: acc) cs

/-- The element walk of `filepath.Clean`: drop `.`, resolve `..` against
the stack, drop `..` at the root. -/
def cleanWork (rooted : Bool) : List String → List String → List String
  | acc, [] => acc.reverse
  | acc, c :: cs =>
    if c = "." then cleanWork rooted acc cs
    else if c = ".." then
      match acc with
      | [] => if rooted then cleanWork rooted [] cs else cleanWork rooted [".."] cs
      | a :: as => if a = ".." then cleanWork rooted (".." :: a :: as) cs else cleanWork rooted as cs
    else cleanWork rooted (c :: acc) cs

/-- Join path components with single slashes. -/
def joinSlash : List String → String
  | [] => ""
  | [x] => x
  | x :: xs => x ++ "/" ++ joinSlash xs

/-- Model of `filepath.IsAbs` on unix: the path starts with a slash. -/
def goIsAbs (p : String) : Bool :=
  match p.data with
  | '/' :: _ => true
  | _ => false

/-- Model of Go `path/filepath.Clean` on unix paths: collapse repeated
slashes, drop `.` elements, resolve `..`, and — decisive for this
repository — drop any trailing slash. -/
def goClean (p : String) : String :=
  if p = "" then "." else
  let rooted := goIsAbs p
  let comps := (splitComps [] p.data).filter (· ≠ "")
  let stack := cleanWork rooted [] comps
  if stack = [] then (if rooted then "/" else ".")
  else if rooted then "/" ++ joinSlash stack else joinSlash stack

/-- Model of Go `path/filepath.Abs` with the working directory passed
explicitly: an absolute path is cleaned, a relative one is joined to the
working directory and cleaned. -/
def goAbs (cwd p : String) : String :=
  if goIsAbs p then goClean p else goClean (cwd ++ "/" ++ p)

/-! ### Data model (`Settings`, `Table`, `Column`) -/

/-- The run configuration, `tablestogo.go:37`. -/
structure Settings where
  Verbose : Bool
  DbType : String
  User : String
  Pswd : String
  DbName : String
  Schema : String
  Host : String
  Port : String
  OutputFilePath : String
  OutputFormat : String
  PackageName : String
  Prefix : String
  Suffix : String
  IsMastermindStructable : Bool
  IsMastermindStructableOnly : Bool
  IsMastermindStructableRecorder : Bool
deriving DecidableEq, Repr

/-- `NewSettings`, `tablestogo.go:57`. -/
def NewSettings : Settings :=
  { Verbose := false
    DbType := "pg"
    User := "postgres"
    Pswd := ""
    DbName := "postgres"
    Schema := "public"
    Host := "127.0.0.1"
    Port := "5432"
    OutputFilePath := "./output"
    OutputFormat := "c"
    PackageName := "dto"
    Prefix := ""
    Suffix := ""
    IsMastermindStructable := false
    IsMastermindStructableOnly := false
    IsMastermindStructableRecorder := false }

/-- `SupportedDbTypes`, `tablestogo.go:21`. -/
def SupportedDbTypes : List String := ["pg", "mysql"]

/-- `SupportedOutputFormats`, `tablestogo.go:22`. -/
def SupportedOutputFormats : List String := ["c", "o"]

/-- `DbDefaultPorts`, `tablestogo.go:29`, as a function (a missing key
yields the zero value of the Go map, the empty string). -/
def dbDefaultPorts (dbType : String) : String :=
  if dbType = "pg" then "5432" else if dbType = "mysql" then "3306" else ""

/-- A column as the emitter reads it.  `ColumnDefault` holds the `String`
field of the Go `sql.NullString` (the code reads only
`column.ColumnDefault.String`, `tablestogo.go:252`); on MySQL it is empty
and `ColumnKey`/`Extra` carry the key role and extra attributes, on
Postgres the converse. -/
structure Column where
  ColumnName : String
  DataType : String
  IsNullable : String
  ColumnDefault : String
  ColumnKey : String
  Extra : String
deriving DecidableEq, Repr

/-- A table with its introspected columns. -/
structure Table where
  TableName : String
  Columns : List Column
deriving DecidableEq, Repr

/-! ### The type mapper, `mapDbColumnTypeToGoType`, `tablestogo.go:333` -/

/-- The integer family of the first switch case, `tablestogo.go:342`. -/
def recognizedIntegerTypes : List String :=
  ["integer", "bigint", "bigserial", "smallint", "smallserial", "serial",
   "int", "tinyint", "mediumint"]

/-- The floating/decimal family, `tablestogo.go:348`. -/
def recognizedFloatTypes : List String :=
  ["double precision", "numeric", "decimal", "real", "float", "double"]

/-- The text/binary family, `tablestogo.go:354`. -/
def recognizedTextTypes : List String :=
  ["character varying", "character", "text", "char", "varchar", "binary",
   "varbinary", "blob"]

/-- The temporal family, `tablestogo.go:360`. -/
def recognizedTemporalTypes : List String :=
  ["time", "timestamp", "time with time zone", "timestamp with time zone",
   "time without time zone", "timestamp without time zone",
   "date", "datetime", "year"]

/-- The nullable Go types the mapper can return. -/
def nullableGoTypes : List String :=
  ["sql.NullInt64", "sql.NullFloat64", "sql.NullString", "pq.NullTime", "sql.NullBool"]

/-- `mapDbColumnTypeToGoType`, `tablestogo.go:333`: the switch over the
raw data type, each case overriding the plain type by its nullable
variant when `isNullable` equals `"YES"`; the default case always yields
`sql.NullString`.  Returns (Go type, is temporal). -/
def mapDbColumnTypeToGoType (dbDataType : String) (isNullable : String) : String × Bool :=
  if dbDataType ∈ recognizedIntegerTypes then
    ((if isNullable = "YES" then "sql.NullInt64" else "int"), false)
  else if dbDataType ∈ recognizedFloatTypes then
    ((if isNullable = "YES" then "sql.NullFloat64" else "float64"), false)
  else if dbDataType ∈ recognizedTextTypes then
    ((if isNullable = "YES" then "sql.NullString" else "string"), false)
  else if dbDataType ∈ recognizedTemporalTypes then
    ((if isNullable = "YES" then "pq.NullTime" else "time.Time"), true)
  else if dbDataType = "boolean" then
    ((if isNullable = "YES" then "sql.NullBool" else "bool"), false)
  else
    ("sql.NullString", false)

/-! ### The struct emitter, `createStructOfTable`, `tablestogo.go:234` -/

/-- The auto-generated-primary-key detection of `tablestogo.go:252`:
on Postgres the default expression contains `nextval`, on MySQL the key
role contains `PRI` and the extra attributes contain `auto_increment`. -/
def autoPkDetected (c : Column) : Bool :=
  goContains c.ColumnDefault "nextval" ||
    (goContains c.ColumnKey "PRI" && goContains c.Extra "auto_increment")

/-- The `mastermindStructableAnnotation` string of `tablestogo.go:249`:
empty when neither structable flag is set, otherwise the `stbl` tag with
the role markers appended exactly when the column is detected as an
auto-generated primary key. -/
def stblTag (s : Settings) (c : Column) : String :=
  if s.IsMastermindStructable || s.IsMastermindStructableOnly then
    " stbl:\"" ++ c.ColumnName ++
      (if autoPkDetected c then ",PRIMARY_KEY,SERIAL,AUTO_INCREMENT" else "") ++ "\""
  else ""

/-- Field and type-name normalisation, `tablestogo.go:243` and `:280`:
`strings.Title`, then `CamelCaseString` when the output format is
`"c"`. -/
def styledName (s : Settings) (raw : String) : String :=
  let n := goTitle raw
  if s.OutputFormat = "c" then camelCaseString n else n

/-- One field line of the generated struct, `tablestogo.go:260`. -/
def colLine (s : Settings) (c : Column) : String :=
  let colName := styledName s c.ColumnName
  let colType := (mapDbColumnTypeToGoType c.DataType c.IsNullable).1
  if s.IsMastermindStructableOnly then
    "\t" ++ colName ++ " " ++ colType ++ " `" ++ stblTag s c ++ "`\n"
  else
    "\t" ++ colName ++ " " ++ colType ++ " `db:\"" ++ c.ColumnName ++ "\"" ++ stblTag s c ++ "`\n"

/-- Concatenation of a list of strings. -/
def strConcat : List String → String
  | [] => ""
  | x :: xs => x ++ strConcat xs

/-- The `isNullable` flag collected over the loop, `tablestogo.go:267`. -/
def anyNullable (t : Table) : Bool :=
  t.Columns.any (fun c => c.IsNullable == "YES")

/-- The `timeIndicator` counter collected over the loop,
`tablestogo.go:270`. -/
def timeColumnCount (t : Table) : Nat :=
  t.Columns.countP (fun c => (mapDbColumnTypeToGoType c.DataType c.IsNullable).2)

/-- The `colBuffer` contents: one line per column, then the recorder
embed when the recorder flag and a structable flag are set,
`tablestogo.go:275`. -/
def colBufferStr (s : Settings) (t : Table) : String :=
  strConcat (t.Columns.map (colLine s)) ++
    (if s.IsMastermindStructableRecorder &&
        (s.IsMastermindStructable || s.IsMastermindStructableOnly) then
      "\t\nstructable.Recorder\n"
    else "")

/-- The normalised type name `tableName` of `tablestogo.go:280`. -/
def structTableName (s : Settings) (t : Table) : String :=
  styledName s (s.Prefix ++ t.TableName ++ s.Suffix)

/-- The path handed to `os.Create`, `tablestogo.go:285`: the
`OutputFilePath` and the file name concatenated with no separator in
between. -/
def outputPath (s : Settings) (t : Table) : String :=
  s.OutputFilePath ++ (structTableName s t ++ ".go")

/-- The import block written at `tablestogo.go:295`: present whenever a
nullable column, a temporal column, or one of the structable flags is
observed; inside it, `database/sql` for nullable columns, `lib/pq` when
temporal and nullable columns coexist, `time` when only temporal columns
exist, and `Masterminds/structable` when the recorder is active. -/
def importsSection (s : Settings) (isNullable : Bool) (timeIndicator : Nat) : String :=
  if isNullable || timeIndicator > 0 || s.IsMastermindStructable ||
      s.IsMastermindStructableOnly then
    "import (\n"
    ++ (if isNullable then "\t\"database/sql\"\n" else "")
    ++ (if timeIndicator > 0 then
          (if isNullable then "\t\n\"github.com/lib/pq\"\n" else "\t\"time\"\n")
        else "")
    ++ (if s.IsMastermindStructableRecorder &&
           (s.IsMastermindStructable || s.IsMastermindStructableOnly) then
          "\t\n\"github.com/Masterminds/structable\"\n"
        else "")
    ++ ")\n\n"
  else ""

/-- The whole raw buffer of `createStructOfTable` before formatting:
package clause, import block, struct declaration. -/
def generatedSource (s : Settings) (t : Table) : String :=
  "package " ++ s.PackageName ++ "\n\n"
  ++ importsSection s (anyNullable t) (timeColumnCount t)
  ++ "type " ++ structTableName s t ++ " struct \x7b\n"
  ++ colBufferStr s t
  ++ "\x7d"

/-- What one run of `createStructOfTable` produces for a table. -/
structure EmittedFile where
  path : String
  raw : String
  written : String
deriving DecidableEq, Repr

/-- `createStructOfTable`, `tablestogo.go:234`, as a pure function.  The
formatter stands for `go/format.Source`, returning output bytes and an
error flag; the Go code discards the error
(`formatedFile, _ := format.Source(buffer.Bytes())`, `:323`) and writes
the returned bytes (`outFile.Write(formatedFile)`, `:326`). -/
def createStructOfTable (formatter : String → String × Bool) (s : Settings)
    (t : Table) : EmittedFile :=
  let raw := generatedSource s t
  { path := outputPath s t
    raw := raw
    written := (formatter raw).1 }

/-! ### Settings verification, `VerifySettings`, `tablestogo.go:112` -/

/-- `prepareOutputPath`, `tablestogo.go:156`: append a slash and make the
path absolute — `filepath.Abs` cleans the path, so the appended slash is
removed again whenever the result is not the bare root. -/
def prepareOutputPath (cwd ofp : String) : String :=
  goAbs cwd (ofp ++ "/")

/-- `VerifySettings`, `tablestogo.go:112`.  `stat` is the `os.Stat`
oracle for `verifyOutputPath` (`none`: no such path; `some b`: exists,
`b` = is a directory); `cwd` is the working directory used by
`filepath.Abs`.  On success the settings are returned with
`OutputFilePath` replaced by its absolute cleaned form and an empty
`Port` defaulted for the database type.  The two mutations of
`tablestogo.go:126` and `:130` (the path made absolute, then an empty
port defaulted), applied to the record at once. -/
def verifiedSettings (cwd : String) (s : Settings) : Settings :=
  if s.Port = "" then
    { s with OutputFilePath := prepareOutputPath cwd s.OutputFilePath,
             Port := dbDefaultPorts s.DbType }
  else
    { s with OutputFilePath := prepareOutputPath cwd s.OutputFilePath }

/-- `VerifySettings`, `tablestogo.go:112`, continued: the supported-type
and supported-format checks, the output-path check, then the mutations of
`verifiedSettings` and the package-name check. -/
def VerifySettings (stat : String → Option Bool) (cwd : String)
    (s : Settings) : Except String Settings :=
  if s.DbType ∉ SupportedDbTypes then
    .error "type of database not supported!"
  else if s.OutputFormat ∉ SupportedOutputFormats then
    .error "output format not supported!"
  else
    match stat s.OutputFilePath with
    | none => .error "output file path does not exists!"
    | some false => .error "output file path is not a directory!"
    | some true =>
      if (verifiedSettings cwd s).PackageName = "" then
        .error "name of package can not be empty!"
      else .ok (verifiedSettings cwd s)

end TablesToGo

namespace TablesToGo

/-! ### Fixtures used by witnesses and counterexamples -/

/-- A formatter that succeeds and returns its input unchanged. -/
def okFormatter : String → String × Bool := fun src => (src, false)

/-- A failing formatter with the behaviour of `go/format.Source` on a
syntax error: no output bytes, error set. -/
def failFormatter : String → String × Bool := fun _ => ("", true)

/-- A `stat` oracle: `./output` exists and is a directory, nothing else
exists. -/
def statOutput : String → Option Bool :=
  fun p => if p = "./output" then some true else none

/-- A Postgres serial primary-key column. -/
def idColumn : Column :=
  { ColumnName := "id", DataType := "integer", IsNullable := "NO",
    ColumnDefault := "nextval('users_id_seq'::regclass)", ColumnKey := "", Extra := "" }

/-- A nullable varchar column. -/
def emailColumn : Column :=
  { ColumnName := "email", DataType := "varchar", IsNullable := "YES",
    ColumnDefault := "", ColumnKey := "", Extra := "" }

/-- A non-nullable timestamp column. -/
def createdAtColumn : Column :=
  { ColumnName := "created_at", DataType := "timestamp", IsNullable := "NO",
    ColumnDefault := "", ColumnKey := "", Extra := "" }

/-- The round-trip table of spec section 8. -/
def usersTable : Table :=
  { TableName := "users", Columns := [idColumn, emailColumn, createdAtColumn] }

/-- A table with a single non-nullable, non-temporal column. -/
def plainTable : Table :=
  { TableName := "things",
    Columns := [{ ColumnName := "id", DataType := "integer", IsNullable := "NO",
                  ColumnDefault := "", ColumnKey := "", Extra := "" }] }

/-- Default settings with plain structable annotations enabled and the
recorder disabled. -/
def sAnnotate : Settings := { NewSettings with IsMastermindStructable := true }

/-- The settings produced by a successful verification of `NewSettings`
against `statOutput` from working directory `/work`. -/
def verified0 : Settings := { NewSettings with OutputFilePath := "/work/output" }

end TablesToGo

namespace TablesToGo

/-! ### Helper lemmas on characters and strings -/

/-- Packing a valid code point and unpacking it is the identity. -/
theorem toNat_ofNat_valid (n : Nat) (h : n.isValidChar) : (Char.ofNat n).toNat = n := by
  rw [Char.ofNat, dif_pos h]; rfl

/-- The code point of `Char.toUpper`. -/
theorem toUpper_toNat (c : Char) :
    (Char.toUpper c).toNat = if 97 ≤ c.toNat ∧ c.toNat ≤ 122 then c.toNat - 32 else c.toNat := by
  unfold Char.toUpper
  by_cases h : 97 ≤ c.toNat ∧ c.toNat ≤ 122
  · rw [if_pos h, if_pos h]
    exact toNat_ofNat_valid _ (Or.inl (by omega))
  · rw [if_neg h, if_neg h]

/-- Characters with equal code points are equal. -/
theorem char_toNat_inj {c d : Char} (h : c.toNat = d.toNat) : c = d :=
  Char.ext (UInt32.toNat.inj h)

/-- Upper-casing is idempotent. -/
theorem toUpper_toUpper (c : Char) : (Char.toUpper c).toUpper = Char.toUpper c := by
  apply char_toNat_inj
  rw [toUpper_toNat (Char.toUpper c), toUpper_toNat c]
  by_cases h : 97 ≤ c.toNat ∧ c.toNat ≤ 122
  · rw [if_pos h, if_neg (by omega)]
  · rw [if_neg h, if_neg h]

/-- Upper-casing does not change separator status. -/
theorem isSep_toUpper (c : Char) : isSepChar (Char.toUpper c) = isSepChar c := by
  unfold isSepChar
  rw [toUpper_toNat c]
  by_cases h : 97 ≤ c.toNat ∧ c.toNat ≤ 122
  · rw [if_pos h]
    apply congrArg
    rw [decide_eq_decide]
    omega
  · rw [if_neg h]

/-- Upper-casing does not change the letter-or-digit status. -/
theorem isAlnum_toUpper (c : Char) : isAlnumChar (Char.toUpper c) = isAlnumChar c := by
  unfold isAlnumChar
  rw [toUpper_toNat c]
  by_cases h : 97 ≤ c.toNat ∧ c.toNat ≤ 122
  · rw [if_pos h]
    rw [decide_eq_decide]
    omega
  · rw [if_neg h]

/-- A second pass of the `strings.Title` walk changes nothing, as long as
the two starting states agree on separator status. -/
theorem goTitleAux_idem (l : List Char) : ∀ p q : Char, isSepChar q = isSepChar p →
    goTitleAux q (goTitleAux p l) = goTitleAux p l := by
  induction l with
  | nil => intro p q _; rfl
  | cons c cs ih =>
    intro p q hq
    cases hsp : isSepChar p with
    | true =>
      have hsq : isSepChar q = true := by rw [hq, hsp]
      simp only [goTitleAux, hsp, hsq, if_true]
      rw [toUpper_toUpper]
      exact congrArg _ (ih c (Char.toUpper c) (isSep_toUpper c))
    | false =>
      have hsq : isSepChar q = false := by rw [hq, hsp]
      simp only [goTitleAux, hsp, hsq, if_false]
      exact congrArg _ (ih c c rfl)

/-- Every character emitted by the camel-case walk is a letter or digit. -/
theorem camelAux_alnum (l : List Char) : ∀ (b : Bool) (c : Char),
    c ∈ camelAux b l → isAlnumChar c = true := by
  induction l with
  | nil => intro b c h; simp [camelAux] at h
  | cons d ds ih =>
    intro b c h
    by_cases hd : isAlnumChar d = true
    · simp only [camelAux, hd, if_true] at h
      rcases List.mem_cons.mp h with h | h
      · subst h
        cases b with
        | true => simpa [isAlnum_toUpper] using hd
        | false => exact hd
      · exact ih false c h
    · simp only [camelAux, if_neg hd] at h
      exact ih true c h

/-- On letter-or-digit input the camel-case walk in mid-segment state is
the identity. -/
theorem camelAux_false_fixed (l : List Char) (h : ∀ c ∈ l, isAlnumChar c = true) :
    camelAux false l = l := by
  induction l with
  | nil => rfl
  | cons d ds ih =>
    have hd : isAlnumChar d = true := h d (List.mem_cons_self d ds)
    simp only [camelAux, hd, if_true, if_false]
    rw [ih fun c hc => h c (List.mem_cons_of_mem d hc)]
    simp

/-- A second pass of the camel-case walk changes nothing. -/
theorem camelAux_idem (l : List Char) : camelAux true (camelAux true l) = camelAux true l := by
  induction l with
  | nil => rfl
  | cons c cs ih =>
    by_cases hc : isAlnumChar c = true
    · simp only [camelAux, hc, if_true]
      have h1 : isAlnumChar (Char.toUpper c) = true := by rw [isAlnum_toUpper]; exact hc
      simp only [camelAux, h1, if_true, toUpper_toUpper]
      rw [camelAux_false_fixed (camelAux false cs) (camelAux_alnum cs false)]
    · simp only [camelAux, if_neg hc]
      exact ih

end TablesToGo

namespace TablesToGo

/-! ### Claims C9, C3, C5, C10 (naming normalizer and type mapper) -/

/-- C9: the naming-normalizer functions are idempotent: titling an
already-titled string and camel-casing an already camel-cased string are
the identity. -/
theorem C9_normalizers_idempotent (x : String) :
    goTitle (goTitle x) = goTitle x ∧
    camelCaseString (camelCaseString x) = camelCaseString x := by
  constructor
  · unfold goTitle
    congr 1
    exact goTitleAux_idem x.data ' ' ' ' rfl
  · unfold camelCaseString
    congr 1
    exact camelAux_idem x.data

/-- C3: the type mapper is a total deterministic function — equal inputs
give equal results — and on `isNullable = "YES"` the resulting field type
is always one of the nullable Go types. -/
theorem C3_type_mapper_deterministic_nullable (dbt isN : String) :
    (∀ dbt2 isN2 : String, dbt = dbt2 → isN = isN2 →
      mapDbColumnTypeToGoType dbt isN = mapDbColumnTypeToGoType dbt2 isN2) ∧
    (isN = "YES" → (mapDbColumnTypeToGoType dbt isN).1 ∈ nullableGoTypes) := by
  constructor
  · intro dbt2 isN2 h1 h2
    rw [h1, h2]
  · intro h
    subst h
    unfold mapDbColumnTypeToGoType
    repeat' split
    all_goals simp_all [nullableGoTypes]

theorem C3_witness :
    mapDbColumnTypeToGoType "uuid" "YES" = mapDbColumnTypeToGoType "uuid" "YES" ∧
    (mapDbColumnTypeToGoType "uuid" "YES").1 ∈ nullableGoTypes :=
  ⟨(C3_type_mapper_deterministic_nullable "uuid" "YES").1 "uuid" "YES" rfl rfl,
   (C3_type_mapper_deterministic_nullable "uuid" "YES").2 rfl⟩

/-- C5: every raw type outside the five recognized families maps to the
nullable-string fallback, regardless of the nullability flag. -/
theorem C5_unrecognized_fallback (dbt isN : String)
    (h1 : dbt ∉ recognizedIntegerTypes) (h2 : dbt ∉ recognizedFloatTypes)
    (h3 : dbt ∉ recognizedTextTypes) (h4 : dbt ∉ recognizedTemporalTypes)
    (h5 : dbt ≠ "boolean") :
    mapDbColumnTypeToGoType dbt isN = ("sql.NullString", false) := by
  simp [mapDbColumnTypeToGoType, h1, h2, h3, h4, h5]

theorem C5_witness : mapDbColumnTypeToGoType "uuid" "NO" = ("sql.NullString", false) :=
  C5_unrecognized_fallback "uuid" "NO" (by decide) (by decide) (by decide) (by decide) (by decide)

/-- C10: the mapper compares the nullability flag against the exact
string `"YES"`; any other value behaves like `"NO"`, and recognized
families then yield the plain non-nullable type. -/
theorem C10_nullability_flag_exact (dbt isN : String) (h : isN ≠ "YES") :
    mapDbColumnTypeToGoType dbt isN = mapDbColumnTypeToGoType dbt "NO" ∧
    (dbt ∈ recognizedIntegerTypes → mapDbColumnTypeToGoType dbt isN = ("int", false)) ∧
    (dbt ∈ recognizedFloatTypes → mapDbColumnTypeToGoType dbt isN = ("float64", false)) ∧
    (dbt ∈ recognizedTextTypes → mapDbColumnTypeToGoType dbt isN = ("string", false)) ∧
    (dbt ∈ recognizedTemporalTypes → mapDbColumnTypeToGoType dbt isN = ("time.Time", true)) ∧
    (dbt = "boolean" → mapDbColumnTypeToGoType dbt isN = ("bool", false)) := by
  refine ⟨?_, ?_, ?_, ?_, ?_, ?_⟩
  · simp [mapDbColumnTypeToGoType, h]
  · intro hm; fin_cases hm <;>
      simp [mapDbColumnTypeToGoType, recognizedIntegerTypes, recognizedFloatTypes,
        recognizedTextTypes, recognizedTemporalTypes, h]
  · intro hm; fin_cases hm <;>
      simp [mapDbColumnTypeToGoType, recognizedIntegerTypes, recognizedFloatTypes,
        recognizedTextTypes, recognizedTemporalTypes, h]
  · intro hm; fin_cases hm <;>
      simp [mapDbColumnTypeToGoType, recognizedIntegerTypes, recognizedFloatTypes,
        recognizedTextTypes, recognizedTemporalTypes, h]
  · intro hm; fin_cases hm <;>
      simp [mapDbColumnTypeToGoType, recognizedIntegerTypes, recognizedFloatTypes,
        recognizedTextTypes, recognizedTemporalTypes, h]
  · intro hb; subst hb
    simp [mapDbColumnTypeToGoType, recognizedIntegerTypes, recognizedFloatTypes,
      recognizedTextTypes, recognizedTemporalTypes, h]

theorem C10_witness : mapDbColumnTypeToGoType "integer" "yes" = ("int", false) :=
  (C10_nullability_flag_exact "integer" "yes" (by decide)).2.1 (by decide)

end TablesToGo

namespace TablesToGo

/-! ### Claims C6 and C7 (annotations and import selection) -/

/-- C6: with annotations enabled, a column detected as an auto-generated
primary key (Postgres: default expression contains `nextval`; MySQL: key
role contains `PRI` and extra contains `auto_increment`) gets the role
markers appended after the column name in its `stbl` tag, and an
undetected column gets none. -/
theorem C6_auto_pk_markers (s : Settings) (c : Column)
    (h : s.IsMastermindStructable = true ∨ s.IsMastermindStructableOnly = true) :
    (autoPkDetected c = true →
      stblTag s c = " stbl:\"" ++ c.ColumnName ++ ",PRIMARY_KEY,SERIAL,AUTO_INCREMENT\"") ∧
    (autoPkDetected c = false →
      stblTag s c = " stbl:\"" ++ c.ColumnName ++ "\"") := by
  have hcond : (s.IsMastermindStructable || s.IsMastermindStructableOnly) = true := by
    rcases h with h | h <;> simp [h]
  constructor
  · intro hd
    simp only [stblTag, hcond, hd, if_true]
    rw [String.append_assoc]
    congr 1
  · intro hd
    simp [stblTag, hcond, hd]

theorem C6_witness :
    autoPkDetected idColumn = true ∧
    stblTag sAnnotate idColumn =
      " stbl:\"" ++ idColumn.ColumnName ++ ",PRIMARY_KEY,SERIAL,AUTO_INCREMENT\"" :=
  ⟨by decide, (C6_auto_pk_markers sAnnotate idColumn (Or.inl rfl)).1 (by decide)⟩

/-- When temporal columns exist, the import block carries
`github.com/lib/pq` and not `time` if some column is nullable, and `time`
and not `github.com/lib/pq` if none is (stated over the two collected
loop signals). -/
theorem importsSection_temporal (s : Settings) (ti : Nat) (h : 0 < ti) :
    (goContains (importsSection s true ti) "\"github.com/lib/pq\"" = true ∧
     goContains (importsSection s true ti) "\"time\"" = false) ∧
    (goContains (importsSection s false ti) "\"time\"" = true ∧
     goContains (importsSection s false ti) "\"github.com/lib/pq\"" = false) := by
  obtain ⟨v, dbt, u, pw, dbn, sch, ho, po, ofp, ofmt, pkg, pre, suf, m1, m2, m3⟩ := s
  cases m1 <;> cases m2 <;> cases m3 <;>
    · simp only [importsSection, h, if_true, if_pos, Bool.true_or, Bool.or_true,
        Bool.false_or, Bool.or_false, Bool.and_self, Bool.true_and, Bool.false_and,
        Bool.and_true, Bool.and_false, decide_True, if_false]
      simp [h]
      decide

/-- C7: for a table with at least one nullable and at least one temporal
column, the import block of its emitted file (the `importsSection` that
`generatedSource` embeds, computed from the collected signals
`anyNullable` and `timeColumnCount`) contains the null-safe temporal
dependency `github.com/lib/pq` and not the plain `time` one; when
temporal columns exist but none is nullable, it contains `time` and not
`github.com/lib/pq`. -/
theorem C7_temporal_import_selection (s : Settings) (t : Table) :
    (anyNullable t = true → 0 < timeColumnCount t →
      goContains (importsSection s (anyNullable t) (timeColumnCount t))
          "\"github.com/lib/pq\"" = true ∧
      goContains (importsSection s (anyNullable t) (timeColumnCount t))
          "\"time\"" = false) ∧
    (anyNullable t = false → 0 < timeColumnCount t →
      goContains (importsSection s (anyNullable t) (timeColumnCount t))
          "\"time\"" = true ∧
      goContains (importsSection s (anyNullable t) (timeColumnCount t))
          "\"github.com/lib/pq\"" = false) := by
  constructor
  · intro hn hti
    rw [hn]
    exact (importsSection_temporal s (timeColumnCount t) hti).1
  · intro hn hti
    rw [hn]
    exact (importsSection_temporal s (timeColumnCount t) hti).2

theorem C7_witness :
    goContains
        (importsSection NewSettings (anyNullable usersTable) (timeColumnCount usersTable))
        "\"github.com/lib/pq\"" = true ∧
    goContains
        (importsSection NewSettings (anyNullable usersTable) (timeColumnCount usersTable))
        "\"time\"" = false :=
  (C7_temporal_import_selection NewSettings usersTable).1 (by decide) (by decide)

/-! ### Claim C2 (import block presence) -/

/-- C2 as stated is false: with a structable flag set, the recorder off,
and a table with no nullable and no temporal column, the generated file
still contains an import block. -/
theorem C2_counterexample :
    goContains (createStructOfTable okFormatter sAnnotate plainTable).raw "import (" = true ∧
    anyNullable plainTable = false ∧
    timeColumnCount plainTable = 0 ∧
    sAnnotate.IsMastermindStructableRecorder = false :=
  ⟨by decide, by decide, by decide, by decide⟩

/-- C2 amended: the import block is present if and only if a nullable
column was observed, a temporal column was observed, or one of the two
structable annotation flags is set (the recorder flag alone plays no
part in the presence of the block). -/
theorem C2_import_block_iff (s : Settings) (nul : Bool) (ti : Nat) :
    importsSection s nul ti ≠ "" ↔
      (nul = true ∨ 0 < ti ∨ s.IsMastermindStructable = true ∨
        s.IsMastermindStructableOnly = true) := by
  constructor
  · intro hne
    by_contra hc
    push_neg at hc
    obtain ⟨h1, h2, h3, h4⟩ := hc
    apply hne
    have hn : nul = false := by cases nul <;> simp_all
    have h3f : s.IsMastermindStructable = false := by
      cases hm : s.IsMastermindStructable <;> simp_all
    have h4f : s.IsMastermindStructableOnly = false := by
      cases hm : s.IsMastermindStructableOnly <;> simp_all
    have hti : ¬ (0 < ti) := by omega
    simp [importsSection, hn, h3f, h4f, hti]
  · intro hd he
    have hc : (nul || decide (ti > 0) || s.IsMastermindStructable ||
        s.IsMastermindStructableOnly) = true := by
      rcases hd with h | h | h | h <;> simp [h]
    rw [importsSection, if_pos hc] at he
    have := congrArg String.data he
    simp [String.data_append] at this

/-! ### Claim C4 (formatter failure handling) -/

/-- C4 as stated is false: when the formatter fails, the emitter writes
the bytes the formatter returned — for the standard library formatter
these are nil — and not the raw generated text, which here is nonempty
while the written content is empty. -/
theorem C4_counterexample :
    (failFormatter (generatedSource NewSettings plainTable)).2 = true ∧
    generatedSource NewSettings plainTable ≠ "" ∧
    (createStructOfTable failFormatter NewSettings plainTable).written = "" :=
  ⟨rfl, by decide, rfl⟩

/-- C4 amended: when the external formatter fails, the emitter still
creates the file and writes exactly the bytes the formatter returned
(ignoring the error), rather than aborting; it does not fall back to the
raw unformatted text. -/
theorem C4_writes_formatter_output (fmt : String → String × Bool)
    (s : Settings) (t : Table)
    (_h : (fmt (generatedSource s t)).2 = true) :
    (createStructOfTable fmt s t).written = (fmt (generatedSource s t)).1 := rfl

theorem C4_witness :
    (createStructOfTable failFormatter NewSettings plainTable).written =
      (failFormatter (generatedSource NewSettings plainTable)).1 :=
  C4_writes_formatter_output failFormatter NewSettings plainTable rfl

/-! ### Claim C8 (settings frame) -/

/-- C8 amended: a successful settings verification leaves every field
unchanged except two. -/
theorem C8_verify_settings_frame (stat : String → Option Bool) (cwd : String)
    (s sr : Settings) (h : VerifySettings stat cwd s = .ok sr) :
    sr.OutputFilePath = prepareOutputPath cwd s.OutputFilePath ∧
    (s.Port ≠ "" → sr.Port = s.Port) ∧
    (s.Port = "" → sr.Port = dbDefaultPorts s.DbType) ∧
    sr.Verbose = s.Verbose ∧ sr.DbType = s.DbType ∧ sr.User = s.User ∧
    sr.Pswd = s.Pswd ∧ sr.DbName = s.DbName ∧ sr.Schema = s.Schema ∧
    sr.Host = s.Host ∧ sr.OutputFormat = s.OutputFormat ∧
    sr.PackageName = s.PackageName ∧ sr.Prefix = s.Prefix ∧
    sr.Suffix = s.Suffix ∧
    sr.IsMastermindStructable = s.IsMastermindStructable ∧
    sr.IsMastermindStructableOnly = s.IsMastermindStructableOnly ∧
    sr.IsMastermindStructableRecorder = s.IsMastermindStructableRecorder := by
  have hsr : sr = verifiedSettings cwd s := by
    unfold VerifySettings at h
    split at h
    · exact absurd h (by simp)
    · split at h
      · exact absurd h (by simp)
      · split at h
        · exact absurd h (by simp)
        · exact absurd h (by simp)
        · split at h
          · exact absurd h (by simp)
          · exact (Except.ok.injEq _ _ ▸ h).symm
  subst hsr
  by_cases hp : s.Port = ""
  · simp [verifiedSettings, hp]
  · simp [verifiedSettings, hp]

theorem C8_witness :
    verified0.OutputFilePath = prepareOutputPath "/work" NewSettings.OutputFilePath :=
  (C8_verify_settings_frame statOutput "/work" NewSettings verified0 rfl).1

theorem C8_counterexample :
    VerifySettings statOutput "/work" NewSettings = .ok verified0 ∧
    verified0.OutputFilePath = "/work/output" ∧
    NewSettings.OutputFilePath = "./output" ∧
    NewSettings.Port = "5432" :=
  ⟨rfl, rfl, rfl, rfl⟩

/-! ### Claim C1 (output file path) -/

/-- C1: the emitted path lacks the directory separator the claim states.
`prepareOutputPath` appends a slash before calling `filepath.Abs`
precisely so that the later concatenation
`settings.OutputFilePath + fileName` (`tablestogo.go:285`) lands inside
the directory, but `Abs` cleans the trailing slash away again, so the
file for table `users` under output directory `./output` (working
directory `/work`) is created at `/work/outputUsers.go` and not at
`/work/output/Users.go`. -/
theorem C1_output_path_missing_separator :
    (VerifySettings statOutput "/work" NewSettings).map
        (fun s => (createStructOfTable okFormatter s usersTable).path) =
      .ok "/work/outputUsers.go" ∧
    "/work/outputUsers.go" ≠ "/work/output/Users.go" :=
  ⟨rfl, by decide⟩

end TablesToGo
